import Mathlib

/-!
Shallow embedding of `rackspace/lb/v1/lbs/results.go` (package `lbs`).

The Go file defines the `LoadBalancer` resource schema and three decode
operations over generically decoded JSON documents:

  * `commonResult.Extract`  — single-resource extraction ("loadBalancer" key)
  * `ExtractLBs`            — collection extraction ("loadBalancers" key)
  * `LBPage.IsEmpty`        — emptiness query that swallows decode errors

Decoding goes through `mapstructure.Decode` with its default configuration:
struct fields are matched against map keys first exactly and then
case-insensitively, missing keys leave the target field zero-valued with no
error, type mismatches produce field errors that are accumulated (the other
fields are still populated), and a `nil` input is a no-op.  We model JSON
documents with an inductive `Json` type and errors as an explicit sum of
transport and decode errors, mirroring Go's `error` values.
-/

namespace Lbs

/-- A generically decoded JSON document, as stored in `Result.Body` /
`LBPage.Body` (Go `interface{}` after JSON unmarshalling). -/
inductive Json where
  | null : Json
  | bool (b : Bool) : Json
  | num (n : Int) : Json
  | str (s : String) : Json
  | arr (xs : List Json) : Json
  | obj (kvs : List (String × Json)) : Json

/-- Whether a character is an ASCII upper-case letter. -/
def isUpperAscii (c : Char) : Bool :=
  65 ≤ c.toNat && c.toNat ≤ 90

/-- ASCII-case-insensitive equality of two characters (all the field names
and document keys handled here are ASCII). -/
def charFoldEq (a b : Char) : Bool :=
  a.toNat == b.toNat ||
  (isUpperAscii a && a.toNat + 32 == b.toNat) ||
  (isUpperAscii b && b.toNat + 32 == a.toNat)

/-- Case-insensitive equality of two character sequences. -/
def charsFoldEq : List Char → List Char → Bool
  | [], [] => true
  | a :: as, b :: bs => charFoldEq a b && charsFoldEq as bs
  | _, _ => false

/-- Case-insensitive string comparison, modelling Go's `strings.EqualFold`
as used by mapstructure for field-name matching. -/
def strFoldEq (a b : String) : Bool :=
  charsFoldEq a.data b.data

/-- mapstructure field lookup: an exact key match is preferred, otherwise
the first case-insensitively equal key is used. -/
def lookupKey (kvs : List (String × Json)) (k : String) : Option Json :=
  match kvs.find? (fun kv => kv.1 == k) with
  | some kv => some kv.2
  | none => (kvs.find? (fun kv => strFoldEq kv.1 k)).map (fun kv => kv.2)

/-- Decode a JSON value into a Go `int` field.  mapstructure accepts
numeric input, treats `nil` as a no-op (field stays zero), and reports a
field error for any other kind. -/
def decodeInt (path : String) (j : Json) : Int × List String :=
  match j with
  | .num n => (n, [])
  | .null => (0, [])
  | _ => (0, [path])

/-- Decode a JSON value into a Go `string` field (also the named string
types `Protocol`, `Algorithm`, `Status`): string input is taken verbatim,
`nil` is a no-op, anything else is a field error. -/
def decodeString (path : String) (j : Json) : String × List String :=
  match j with
  | .str s => (s, [])
  | .null => ("", [])
  | _ => ("", [path])

/-- Decode a JSON value into a Go `bool` field. -/
def decodeBool (path : String) (j : Json) : Bool × List String :=
  match j with
  | .bool b => (b, [])
  | .null => (false, [])
  | _ => (false, [path])

/-- Extend an error path with a field name, as mapstructure does when
recursing into a struct field. -/
def subPath (path key : String) : String :=
  if path == "" then key else path ++ "." ++ key

/-- Decode one struct field: look the field's mapstructure name up in the
document; a missing key leaves the zero value with no error, a present key
is decoded by `dec`. -/
def decField {α : Type} (kvs : List (String × Json)) (path key : String)
    (dec : String → Json → α × List String) (zero : α) : α × List String :=
  match lookupKey kvs key with
  | none => (zero, [])
  | some v => dec (subPath path key) v

/-- Decode the elements of a JSON array in order, starting at index `i`:
each element is decoded by `dec` with its index appended to the path, and
the element errors are concatenated. -/
def decodeListFrom {α : Type} (dec : String → Json → α × List String)
    (path : String) : Nat → List Json → List α × List String
  | _, [] => ([], [])
  | i, x :: xs =>
      let r := dec (path ++ "[" ++ toString i ++ "]") x
      let rest := decodeListFrom dec path (i + 1) xs
      (r.1 :: rest.1, r.2 ++ rest.2)

/-- Decode a JSON value into a Go slice field: array input is decoded
element by element preserving order, `nil` leaves the slice empty, and any
other kind is a field error. -/
def decodeList {α : Type} (dec : String → Json → α × List String)
    (path : String) (j : Json) : List α × List String :=
  match j with
  | .arr xs => decodeListFrom dec path 0 xs
  | .null => ([], [])
  | _ => ([], [path])

/-- `type Protocol string` — the network protocol the load balancer
accepts; a tagged string, not an enforced enumeration. -/
abbrev Protocol := String

/-- `type Algorithm string` — how traffic is directed between back-end
nodes. -/
abbrev Algorithm := String

/-- `type Status string` — the reported state of a load balancer. -/
abbrev Status := String

/-- `Datetime` wraps the opaque time string of a Created/Updated field. -/
structure Datetime where
  Time : String
deriving DecidableEq, Repr

/-- `SourceAddrs` sub-record. -/
structure SourceAddrs where
  IPv4Public : String
  IPv4Private : String
  IPv6Public : String
  IPv6Private : String
deriving DecidableEq, Repr

/-- `SessionPersistence` sub-record.  The Go field is named `Type`, which
is a reserved word here, so it is rendered `PersistenceType` (its
mapstructure tag name). -/
structure SessionPersistence where
  PersistenceType : String
deriving DecidableEq, Repr

/-- `ConnectionThrottle` sub-record. -/
structure ConnectionThrottle where
  MinConns : Int
  MaxConns : Int
  MaxConnRate : Int
  RateInterval : Int
deriving DecidableEq, Repr

/-- `ConnectionLogging` sub-record. -/
structure ConnectionLogging where
  Enabled : Bool
deriving DecidableEq, Repr

/-- `Cluster` sub-record. -/
structure Cluster where
  Name : String
deriving DecidableEq, Repr

/-- Modelled from the spec: the `VIP` record type lives in the sibling
module `rackspace/lb/v1/vips`, which is not part of this source tree; the
spec describes it only as a virtual-IP association record, so we model it
with a single address field. -/
structure VIP where
  Address : String
deriving DecidableEq, Repr

/-- Modelled from the spec: the `Node` record type lives in the sibling
module `rackspace/lb/v1/nodes`, which is not part of this source tree; the
spec describes it only as a back-end target record, so we model it with a
single address field. -/
structure Node where
  Address : String
deriving DecidableEq, Repr

/-- The zero value of `Datetime`. -/
def Datetime.zero : Datetime := { Time := "" }

/-- The zero value of `SourceAddrs`. -/
def SourceAddrs.zero : SourceAddrs :=
  { IPv4Public := "", IPv4Private := "", IPv6Public := "", IPv6Private := "" }

/-- The zero value of `SessionPersistence`. -/
def SessionPersistence.zero : SessionPersistence := { PersistenceType := "" }

/-- The zero value of `ConnectionThrottle`. -/
def ConnectionThrottle.zero : ConnectionThrottle :=
  { MinConns := 0, MaxConns := 0, MaxConnRate := 0, RateInterval := 0 }

/-- The zero value of `ConnectionLogging`. -/
def ConnectionLogging.zero : ConnectionLogging := { Enabled := false }

/-- The zero value of `Cluster`. -/
def Cluster.zero : Cluster := { Name := "" }

/-- Decode a `Datetime` struct field (Go field name `Time`, no tag). -/
def decodeDatetime (path : String) (j : Json) : Datetime × List String :=
  match j with
  | .obj kvs =>
      let t := decField kvs path "Time" decodeString ""
      ({ Time := t.1 }, t.2)
  | .null => (Datetime.zero, [])
  | _ => (Datetime.zero, [path])

/-- Decode a `SourceAddrs` struct field (mapstructure tags `ipv4Public`,
`ipv4Servicenet`, `ipv6Public`, `ipv6Servicenet`). -/
def decodeSourceAddrs (path : String) (j : Json) : SourceAddrs × List String :=
  match j with
  | .obj kvs =>
      let a := decField kvs path "ipv4Public" decodeString ""
      let b := decField kvs path "ipv4Servicenet" decodeString ""
      let c := decField kvs path "ipv6Public" decodeString ""
      let d := decField kvs path "ipv6Servicenet" decodeString ""
      ({ IPv4Public := a.1, IPv4Private := b.1,
         IPv6Public := c.1, IPv6Private := d.1 },
       a.2 ++ b.2 ++ c.2 ++ d.2)
  | .null => (SourceAddrs.zero, [])
  | _ => (SourceAddrs.zero, [path])

/-- Decode a `SessionPersistence` struct field (tag `persistenceType`). -/
def decodeSessionPersistence (path : String) (j : Json) :
    SessionPersistence × List String :=
  match j with
  | .obj kvs =>
      let t := decField kvs path "persistenceType" decodeString ""
      ({ PersistenceType := t.1 }, t.2)
  | .null => (SessionPersistence.zero, [])
  | _ => (SessionPersistence.zero, [path])

/-- Decode a `ConnectionThrottle` struct field (tags `minConnections`,
`maxConnections`, `maxConnectionRate`, `rateInterval`). -/
def decodeConnectionThrottle (path : String) (j : Json) :
    ConnectionThrottle × List String :=
  match j with
  | .obj kvs =>
      let a := decField kvs path "minConnections" decodeInt 0
      let b := decField kvs path "maxConnections" decodeInt 0
      let c := decField kvs path "maxConnectionRate" decodeInt 0
      let d := decField kvs path "rateInterval" decodeInt 0
      ({ MinConns := a.1, MaxConns := b.1,
         MaxConnRate := c.1, RateInterval := d.1 },
       a.2 ++ b.2 ++ c.2 ++ d.2)
  | .null => (ConnectionThrottle.zero, [])
  | _ => (ConnectionThrottle.zero, [path])

/-- Decode a `ConnectionLogging` struct field (Go field name `Enabled`). -/
def decodeConnectionLogging (path : String) (j : Json) :
    ConnectionLogging × List String :=
  match j with
  | .obj kvs =>
      let e := decField kvs path "Enabled" decodeBool false
      ({ Enabled := e.1 }, e.2)
  | .null => (ConnectionLogging.zero, [])
  | _ => (ConnectionLogging.zero, [path])

/-- Decode a `Cluster` struct field (Go field name `Name`). -/
def decodeCluster (path : String) (j : Json) : Cluster × List String :=
  match j with
  | .obj kvs =>
      let n := decField kvs path "Name" decodeString ""
      ({ Name := n.1 }, n.2)
  | .null => (Cluster.zero, [])
  | _ => (Cluster.zero, [path])

/-- Decode a `VIP` element (spec-modelled single address field). -/
def decodeVIP (path : String) (j : Json) : VIP × List String :=
  match j with
  | .obj kvs =>
      let a := decField kvs path "Address" decodeString ""
      ({ Address := a.1 }, a.2)
  | .null => ({ Address := "" }, [])
  | _ => ({ Address := "" }, [path])

/-- Decode a `Node` element (spec-modelled single address field). -/
def decodeNode (path : String) (j : Json) : Node × List String :=
  match j with
  | .obj kvs =>
      let a := decField kvs path "Address" decodeString ""
      ({ Address := a.1 }, a.2)
  | .null => ({ Address := "" }, [])
  | _ => ({ Address := "" }, [path])

/-- `LoadBalancer` — the load balancer API resource, field for field as in
the Go struct. -/
structure LoadBalancer where
  Name : String
  ID : Int
  Protocol : Protocol
  Algorithm : Algorithm
  Status : Status
  NodeCount : Int
  VIPs : List VIP
  Created : Datetime
  Updated : Datetime
  Port : Int
  HalfClosed : Bool
  Timeout : Int
  Cluster : Cluster
  Nodes : List Node
  ConnectionLogging : ConnectionLogging
  SessionPersistence : SessionPersistence
  ConnectionThrottle : ConnectionThrottle
  SourceAddrs : SourceAddrs
deriving DecidableEq, Repr

/-- The zero value of `LoadBalancer`, as Go leaves it before decoding. -/
def LoadBalancer.zero : LoadBalancer :=
  { Name := "", ID := 0, Protocol := "", Algorithm := "", Status := "",
    NodeCount := 0, VIPs := [], Created := Datetime.zero,
    Updated := Datetime.zero, Port := 0, HalfClosed := false, Timeout := 0,
    Cluster := Cluster.zero, Nodes := [],
    ConnectionLogging := ConnectionLogging.zero,
    SessionPersistence := SessionPersistence.zero,
    ConnectionThrottle := ConnectionThrottle.zero,
    SourceAddrs := SourceAddrs.zero }

/-- Decode a JSON value into a `LoadBalancer`.  Field names follow the Go
struct: the mapstructure tag where one is given (`nodeCount`,
`virtualIps`, `sourceAddresses`) and the Go field name otherwise, matched
case-insensitively against the document keys.  Missing keys leave the zero
value; per-field errors are accumulated while all other fields are still
populated. -/
def decodeLoadBalancer (path : String) (j : Json) : LoadBalancer × List String :=
  match j with
  | .obj kvs =>
      let fName := decField kvs path "Name" decodeString ""
      let fID := decField kvs path "ID" decodeInt 0
      let fProtocol := decField kvs path "Protocol" decodeString ""
      let fAlgorithm := decField kvs path "Algorithm" decodeString ""
      let fStatus := decField kvs path "Status" decodeString ""
      let fNodeCount := decField kvs path "nodeCount" decodeInt 0
      let fVIPs := decField kvs path "virtualIps" (decodeList decodeVIP) []
      let fCreated := decField kvs path "Created" decodeDatetime Datetime.zero
      let fUpdated := decField kvs path "Updated" decodeDatetime Datetime.zero
      let fPort := decField kvs path "Port" decodeInt 0
      let fHalfClosed := decField kvs path "HalfClosed" decodeBool false
      let fTimeout := decField kvs path "Timeout" decodeInt 0
      let fCluster := decField kvs path "Cluster" decodeCluster Cluster.zero
      let fNodes := decField kvs path "Nodes" (decodeList decodeNode) []
      let fCL := decField kvs path "ConnectionLogging" decodeConnectionLogging
        ConnectionLogging.zero
      let fSP := decField kvs path "SessionPersistence" decodeSessionPersistence
        SessionPersistence.zero
      let fCT := decField kvs path "ConnectionThrottle" decodeConnectionThrottle
        ConnectionThrottle.zero
      let fSA := decField kvs path "sourceAddresses" decodeSourceAddrs
        SourceAddrs.zero
      ({ Name := fName.1, ID := fID.1, Protocol := fProtocol.1,
         Algorithm := fAlgorithm.1, Status := fStatus.1,
         NodeCount := fNodeCount.1, VIPs := fVIPs.1, Created := fCreated.1,
         Updated := fUpdated.1, Port := fPort.1, HalfClosed := fHalfClosed.1,
         Timeout := fTimeout.1, Cluster := fCluster.1, Nodes := fNodes.1,
         ConnectionLogging := fCL.1, SessionPersistence := fSP.1,
         ConnectionThrottle := fCT.1, SourceAddrs := fSA.1 },
       fName.2 ++ fID.2 ++ fProtocol.2 ++ fAlgorithm.2 ++ fStatus.2 ++
       fNodeCount.2 ++ fVIPs.2 ++ fCreated.2 ++ fUpdated.2 ++ fPort.2 ++
       fHalfClosed.2 ++ fTimeout.2 ++ fCluster.2 ++ fNodes.2 ++ fCL.2 ++
       fSP.2 ++ fCT.2 ++ fSA.2)
  | .null => (LoadBalancer.zero, [])
  | _ => (LoadBalancer.zero, [path])

/-- A Go `error` value as seen by this module: either the transport-level
error preset on a result by the HTTP layer, or a decode error produced by
mapstructure, carrying the offending field paths.  The two are distinct
constructors, so they are distinguishable. -/
inductive GoErr where
  | transport (msg : String) : GoErr
  | decode (fields : List String) : GoErr
deriving DecidableEq, Repr

/-- Whether an error is a decode error (as opposed to a transport error). -/
def GoErr.isDecode : GoErr → Bool
  | .decode _ => true
  | .transport _ => false

/-- Turn mapstructure's accumulated field errors into a Go `error`:
`nil` when no field failed, a single combined decode error otherwise. -/
def errOfFields (errs : List String) : Option GoErr :=
  if errs.isEmpty then none else some (GoErr.decode errs)

/-- `commonResult` — a raw response body plus a possible transport error
(the embedded `gophercloud.Result`). -/
structure commonResult where
  Body : Json
  Err : Option GoErr

/-- Decode the single-resource response envelope: the anonymous Go struct
`{ LB LoadBalancer mapstructure:"loadBalancer" }`.  A missing envelope key
leaves the zero `LoadBalancer` with no error; a non-map body is a decode
error at the root. -/
def decodeLBResponse (j : Json) : LoadBalancer × List String :=
  match j with
  | .obj kvs =>
      match lookupKey kvs "loadBalancer" with
      | none => (LoadBalancer.zero, [])
      | some v => decodeLoadBalancer "loadBalancer" v
  | .null => (LoadBalancer.zero, [])
  | _ => (LoadBalancer.zero, [""])

/-- `commonResult.Extract` — returns the preset transport error unchanged
with a nil resource when one is present; otherwise decodes the body and
returns `&response.LB` (always a non-nil pointer, modelled `some`)
together with the decode error, if any. -/
def commonResult.Extract (r : commonResult) : Option LoadBalancer × Option GoErr :=
  match r.Err with
  | some e => (none, some e)
  | none =>
      let d := decodeLBResponse r.Body
      (some d.1, errOfFields d.2)

/-- `LBPage` — a page of load balancers: the link-following base plus the
raw body (only the body matters to this module). -/
structure LBPage where
  Body : Json

/-- A dynamic `pagination.Page` value.  The interface is open: a value is
either an `LBPage` or some other concrete page type, which we render as an
opaque tag plus body. -/
inductive Page where
  | lb (p : LBPage) : Page
  | other (tag : String) (body : Json) : Page

/-- Decode the collection response envelope: the anonymous Go struct
`{ LBs []LoadBalancer mapstructure:"loadBalancers" }`. -/
def decodeLBsResponse (j : Json) : List LoadBalancer × List String :=
  match j with
  | .obj kvs =>
      match lookupKey kvs "loadBalancers" with
      | none => ([], [])
      | some v => decodeList decodeLoadBalancer "LBs" v
  | .null => ([], [])
  | _ => ([], [""])

/-- `ExtractLBs` — performs the unchecked type assertion `page.(LBPage)`
(a panic, modelled as `none`, on any other page type), then decodes the
body's `loadBalancers` array into a slice of `LoadBalancer`. -/
def ExtractLBs (page : Page) : Option (List LoadBalancer × Option GoErr) :=
  match page with
  | .other _ _ => none
  | .lb p =>
      let d := decodeLBsResponse p.Body
      some (d.1, errOfFields d.2)

/-- `LBPage.IsEmpty` — calls `ExtractLBs` on the page; a decode error is
swallowed and reported as `(true, nil)`, otherwise the answer is whether
the slice has length zero, again with a nil error.  The `none` branch
models panic propagation and is unreachable for an `LBPage` argument. -/
def LBPage.IsEmpty (p : LBPage) : Option (Bool × Option GoErr) :=
  match ExtractLBs (Page.lb p) with
  | none => none
  | some (_, some _) => some (true, none)
  | some (is, none) => some (is.isEmpty, none)

/-- Wire-format document for a `VIP` element. -/
def encodeVIP (v : VIP) : Json :=
  .obj [("address", .str v.Address)]

/-- Wire-format document for a `Node` element. -/
def encodeNode (n : Node) : Json :=
  .obj [("address", .str n.Address)]

/-- Wire-format document for a `Datetime` (object with a time string). -/
def encodeDatetime (d : Datetime) : Json :=
  .obj [("time", .str d.Time)]

/-- Wire-format document for a `SourceAddrs` sub-record. -/
def encodeSourceAddrs (s : SourceAddrs) : Json :=
  .obj [("ipv4Public", .str s.IPv4Public),
        ("ipv4Servicenet", .str s.IPv4Private),
        ("ipv6Public", .str s.IPv6Public),
        ("ipv6Servicenet", .str s.IPv6Private)]

/-- Wire-format document for a `SessionPersistence` sub-record. -/
def encodeSessionPersistence (s : SessionPersistence) : Json :=
  .obj [("persistenceType", .str s.PersistenceType)]

/-- Wire-format document for a `ConnectionThrottle` sub-record. -/
def encodeConnectionThrottle (c : ConnectionThrottle) : Json :=
  .obj [("minConnections", .num c.MinConns),
        ("maxConnections", .num c.MaxConns),
        ("maxConnectionRate", .num c.MaxConnRate),
        ("rateInterval", .num c.RateInterval)]

/-- Wire-format document for a `ConnectionLogging` sub-record. -/
def encodeConnectionLogging (c : ConnectionLogging) : Json :=
  .obj [("enabled", .bool c.Enabled)]

/-- Wire-format document for a `Cluster` sub-record. -/
def encodeCluster (c : Cluster) : Json :=
  .obj [("name", .str c.Name)]

/-- The key/value pairs of the wire-format per-element document of a load
balancer, carrying the full documented field set (spec §6) with the values
of `lb`. -/
def lbDoc (lb : LoadBalancer) : List (String × Json) :=
  [("id", .num lb.ID),
   ("name", .str lb.Name),
   ("protocol", .str lb.Protocol),
   ("algorithm", .str lb.Algorithm),
   ("status", .str lb.Status),
   ("nodeCount", .num lb.NodeCount),
   ("virtualIps", .arr (lb.VIPs.map encodeVIP)),
   ("created", encodeDatetime lb.Created),
   ("updated", encodeDatetime lb.Updated),
   ("port", .num lb.Port),
   ("halfClosed", .bool lb.HalfClosed),
   ("timeout", .num lb.Timeout),
   ("cluster", encodeCluster lb.Cluster),
   ("nodes", .arr (lb.Nodes.map encodeNode)),
   ("connectionLogging", encodeConnectionLogging lb.ConnectionLogging),
   ("sessionPersistence", encodeSessionPersistence lb.SessionPersistence),
   ("connectionThrottle", encodeConnectionThrottle lb.ConnectionThrottle),
   ("sourceAddresses", encodeSourceAddrs lb.SourceAddrs)]

/-- The wire-format per-element document of a load balancer: the canonical
well-formed single-resource payload. -/
def encodeLB (lb : LoadBalancer) : Json :=
  .obj (lbDoc lb)

/-- The example single-resource document of spec section 8. -/
def exampleDoc : Json :=
  .obj [("loadBalancer", .obj
    [("id", .num 12345), ("name", .str "lb-test"), ("protocol", .str "TCP"),
     ("algorithm", .str "RANDOM"), ("status", .str "ACTIVE"),
     ("nodeCount", .num 2), ("port", .num 80), ("timeout", .num 30)])]

/-- The decoded resource the spec expects for `exampleDoc`: the listed
fields set, everything else zero-valued. -/
def exampleLB : LoadBalancer :=
  { LoadBalancer.zero with
    ID := 12345
    Name := "lb-test"
    Protocol := "TCP"
    Algorithm := "RANDOM"
    Status := "ACTIVE"
    NodeCount := 2
    Port := 80
    Timeout := 30 }

end Lbs

open Lbs

/-- Decoding the wire-format document of a `VIP` recovers it exactly. -/
theorem decodeVIP_enc (p : String) (v : VIP) : decodeVIP p (encodeVIP v) = (v, []) := rfl

/-- Decoding the wire-format document of a `Node` recovers it exactly. -/
theorem decodeNode_enc (p : String) (n : Node) : decodeNode p (encodeNode n) = (n, []) := rfl

/-- Decoding the wire-format document of a `Datetime` recovers it exactly. -/
theorem decodeDatetime_enc (p : String) (d : Datetime) : decodeDatetime p (encodeDatetime d) = (d, []) := rfl

/-- Decoding the wire-format document of a `SourceAddrs` recovers it exactly. -/
theorem decodeSourceAddrs_enc (p : String) (s : SourceAddrs) : decodeSourceAddrs p (encodeSourceAddrs s) = (s, []) := rfl

/-- Decoding the wire-format document of a `SessionPersistence` recovers it exactly. -/
theorem decodeSessionPersistence_enc (p : String) (s : SessionPersistence) : decodeSessionPersistence p (encodeSessionPersistence s) = (s, []) := rfl

/-- Decoding the wire-format document of a `ConnectionThrottle` recovers it exactly. -/
theorem decodeConnectionThrottle_enc (p : String) (c : ConnectionThrottle) : decodeConnectionThrottle p (encodeConnectionThrottle c) = (c, []) := rfl

/-- Decoding the wire-format document of a `ConnectionLogging` recovers it exactly. -/
theorem decodeConnectionLogging_enc (p : String) (c : ConnectionLogging) : decodeConnectionLogging p (encodeConnectionLogging c) = (c, []) := rfl

/-- Decoding the wire-format document of a `Cluster` recovers it exactly. -/
theorem decodeCluster_enc (p : String) (c : Cluster) : decodeCluster p (encodeCluster c) = (c, []) := rfl

/-- Looking up the `Name` field in the canonical document finds the name. -/
theorem lk_Name (lb : LoadBalancer) : lookupKey (lbDoc lb) "Name" = some (.str lb.Name) := rfl

/-- Looking up the `ID` field in the canonical document finds the id. -/
theorem lk_ID (lb : LoadBalancer) : lookupKey (lbDoc lb) "ID" = some (.num lb.ID) := rfl

/-- Looking up the `Protocol` field in the canonical document finds it. -/
theorem lk_Protocol (lb : LoadBalancer) : lookupKey (lbDoc lb) "Protocol" = some (.str lb.Protocol) := rfl

/-- Looking up the `Algorithm` field in the canonical document finds it. -/
theorem lk_Algorithm (lb : LoadBalancer) : lookupKey (lbDoc lb) "Algorithm" = some (.str lb.Algorithm) := rfl

/-- Looking up the `Status` field in the canonical document finds it. -/
theorem lk_Status (lb : LoadBalancer) : lookupKey (lbDoc lb) "Status" = some (.str lb.Status) := rfl

/-- Looking up the `nodeCount` field in the canonical document finds it. -/
theorem lk_nodeCount (lb : LoadBalancer) : lookupKey (lbDoc lb) "nodeCount" = some (.num lb.NodeCount) := rfl

/-- Looking up the `virtualIps` field in the canonical document finds it. -/
theorem lk_virtualIps (lb : LoadBalancer) : lookupKey (lbDoc lb) "virtualIps" = some (.arr (lb.VIPs.map encodeVIP)) := rfl

/-- Looking up the `Created` field in the canonical document finds it. -/
theorem lk_Created (lb : LoadBalancer) : lookupKey (lbDoc lb) "Created" = some (encodeDatetime lb.Created) := rfl

/-- Looking up the `Updated` field in the canonical document finds it. -/
theorem lk_Updated (lb : LoadBalancer) : lookupKey (lbDoc lb) "Updated" = some (encodeDatetime lb.Updated) := rfl

/-- Looking up the `Port` field in the canonical document finds it. -/
theorem lk_Port (lb : LoadBalancer) : lookupKey (lbDoc lb) "Port" = some (.num lb.Port) := rfl

/-- Looking up the `HalfClosed` field in the canonical document finds it. -/
theorem lk_HalfClosed (lb : LoadBalancer) : lookupKey (lbDoc lb) "HalfClosed" = some (.bool lb.HalfClosed) := rfl

/-- Looking up the `Timeout` field in the canonical document finds it. -/
theorem lk_Timeout (lb : LoadBalancer) : lookupKey (lbDoc lb) "Timeout" = some (.num lb.Timeout) := rfl

/-- Looking up the `Cluster` field in the canonical document finds it. -/
theorem lk_Cluster (lb : LoadBalancer) : lookupKey (lbDoc lb) "Cluster" = some (encodeCluster lb.Cluster) := rfl

/-- Looking up the `Nodes` field in the canonical document finds it. -/
theorem lk_Nodes (lb : LoadBalancer) : lookupKey (lbDoc lb) "Nodes" = some (.arr (lb.Nodes.map encodeNode)) := rfl

/-- Looking up the `ConnectionLogging` field in the canonical document finds it. -/
theorem lk_ConnectionLogging (lb : LoadBalancer) : lookupKey (lbDoc lb) "ConnectionLogging" = some (encodeConnectionLogging lb.ConnectionLogging) := rfl

/-- Looking up the `SessionPersistence` field in the canonical document finds it. -/
theorem lk_SessionPersistence (lb : LoadBalancer) : lookupKey (lbDoc lb) "SessionPersistence" = some (encodeSessionPersistence lb.SessionPersistence) := rfl

/-- Looking up the `ConnectionThrottle` field in the canonical document finds it. -/
theorem lk_ConnectionThrottle (lb : LoadBalancer) : lookupKey (lbDoc lb) "ConnectionThrottle" = some (encodeConnectionThrottle lb.ConnectionThrottle) := rfl

/-- Looking up the `sourceAddresses` field in the canonical document finds it. -/
theorem lk_sourceAddresses (lb : LoadBalancer) : lookupKey (lbDoc lb) "sourceAddresses" = some (encodeSourceAddrs lb.SourceAddrs) := rfl

/-- Decoding an array of encoded VIPs, from any start index, recovers the
list with no errors. -/
theorem decodeListFrom_vips (path : String) :
    ∀ (vs : List VIP) (i : Nat),
      decodeListFrom decodeVIP path i (vs.map encodeVIP) = (vs, []) := by
  intro vs
  induction vs with
  | nil => intro i; rfl
  | cons a t ih => intro i; simp [decodeListFrom, ih, decodeVIP_enc]

/-- Decoding an array of encoded nodes, from any start index, recovers the
list with no errors. -/
theorem decodeListFrom_nodes (path : String) :
    ∀ (ns : List Node) (i : Nat),
      decodeListFrom decodeNode path i (ns.map encodeNode) = (ns, []) := by
  intro ns
  induction ns with
  | nil => intro i; rfl
  | cons a t ih => intro i; simp [decodeListFrom, ih, decodeNode_enc]

/-- Decoding the canonical wire-format document of a load balancer
recovers the load balancer exactly, with no decode errors. -/
theorem decodeLoadBalancer_encodeLB (path : String) (lb : LoadBalancer) :
    decodeLoadBalancer path (encodeLB lb) = (lb, []) := by
  simp only [encodeLB, decodeLoadBalancer, decField,
    lk_Name, lk_ID, lk_Protocol, lk_Algorithm, lk_Status, lk_nodeCount,
    lk_virtualIps, lk_Created, lk_Updated, lk_Port, lk_HalfClosed,
    lk_Timeout, lk_Cluster, lk_Nodes, lk_ConnectionLogging,
    lk_SessionPersistence, lk_ConnectionThrottle, lk_sourceAddresses,
    decodeString, decodeInt, decodeBool,
    decodeDatetime_enc, decodeSourceAddrs_enc, decodeSessionPersistence_enc,
    decodeConnectionThrottle_enc, decodeConnectionLogging_enc,
    decodeCluster_enc,
    decodeList, decodeListFrom_vips, decodeListFrom_nodes,
    List.append_nil, List.nil_append]

/-- Decoding an array of encoded load balancers, from any start index,
recovers the list with no errors. -/
theorem decodeListFrom_lbs (path : String) :
    ∀ (xs : List LoadBalancer) (i : Nat),
      decodeListFrom decodeLoadBalancer path i (xs.map encodeLB) = (xs, []) := by
  intro xs
  induction xs with
  | nil => intro i; rfl
  | cons a t ih => intro i; simp [decodeListFrom, ih, decodeLoadBalancer_encodeLB]

/-- Claim C1: for every result object carrying a preset transport-level
error, `Extract` returns exactly that error and a nil resource, regardless
of the body's content, without attempting to decode the body. -/
theorem extract_propagates_transport_error (body : Json) (e : GoErr) :
    commonResult.Extract { Body := body, Err := some e } = (none, some e) := rfl

/-- Claim C2, counterexample: a result with no transport error whose body
lacks the `loadBalancer` envelope key makes `Extract` return a zero-valued
`LoadBalancer` with no error at all, contradicting the claim that a decode
error is surfaced. -/
theorem extract_missing_envelope_counterexample :
    commonResult.Extract { Body := Json.obj [], Err := none }
      = (some LoadBalancer.zero, none) := rfl

/-- Claim C2, amended: when the envelope key is present and its value is
neither an object nor null, `Extract` surfaces a decode error,
distinguishable from a transport error, alongside the zero-valued
resource; when the envelope key is absent, or present with a null value
(a mapstructure no-op), `Extract` returns a zero-valued `LoadBalancer`
with no error. -/
theorem extract_envelope_decode_behaviour (v : Json)
    (hobj : ∀ kvs, v ≠ Json.obj kvs) (hnull : v ≠ Json.null) :
    commonResult.Extract { Body := Json.obj [("loadBalancer", v)], Err := none }
      = (some LoadBalancer.zero, some (GoErr.decode ["loadBalancer"]))
    ∧ (GoErr.decode ["loadBalancer"]).isDecode = true
    ∧ (∀ m, GoErr.decode ["loadBalancer"] ≠ GoErr.transport m)
    ∧ commonResult.Extract { Body := Json.obj [], Err := none }
      = (some LoadBalancer.zero, none)
    ∧ commonResult.Extract { Body := Json.obj [("loadBalancer", Json.null)], Err := none }
      = (some LoadBalancer.zero, none) := by
  refine ⟨?_, rfl, fun _ h => GoErr.noConfusion h, rfl, rfl⟩
  cases v with
  | null => exact absurd rfl hnull
  | obj kvs => exact absurd rfl (hobj kvs)
  | bool b => rfl
  | num n => rfl
  | str s => rfl
  | arr xs => rfl

/-- Witness for amended claim C2 at the string envelope value: it is
neither an object nor null, and `Extract` reports the decode error. -/
theorem extract_envelope_decode_behaviour_witness :
    (∀ kvs, Json.str "oops" ≠ Json.obj kvs) ∧ Json.str "oops" ≠ Json.null ∧
    commonResult.Extract { Body := Json.obj [("loadBalancer", Json.str "oops")], Err := none }
      = (some LoadBalancer.zero, some (GoErr.decode ["loadBalancer"])) :=
  ⟨fun _ h => Json.noConfusion h, fun h => Json.noConfusion h,
   (extract_envelope_decode_behaviour (Json.str "oops")
     (fun _ h => Json.noConfusion h) (fun h => Json.noConfusion h)).1⟩

/-- Claim C3: for every page, `IsEmpty` returns a nil error; in particular
whenever `ExtractLBs` on the page returns a decode error, `IsEmpty`
returns `(true, nil)`, conflating zero elements and decode failure. -/
theorem isEmpty_always_nil_error (p : LBPage) :
    (∃ b, p.IsEmpty = some (b, none)) ∧
    (∀ lbs e, ExtractLBs (Page.lb p) = some (lbs, some e) → p.IsEmpty = some (true, none)) := by
  obtain ⟨body⟩ := p
  constructor
  · rcases h : errOfFields (decodeLBsResponse body).2 with _ | e
    · exact ⟨(decodeLBsResponse body).1.isEmpty, by simp [LBPage.IsEmpty, ExtractLBs, h]⟩
    · exact ⟨true, by simp [LBPage.IsEmpty, ExtractLBs, h]⟩
  · intro lbs e heq
    simp only [ExtractLBs] at heq
    have h2 : errOfFields (decodeLBsResponse body).2 = some e := by
      have h3 := (Option.some.injEq _ _).mp heq
      exact congrArg Prod.snd h3
    simp [LBPage.IsEmpty, ExtractLBs, h2]

/-- Witness for claim C3 at a malformed collection page: its array element
is not an object, `ExtractLBs` reports a decode error, and `IsEmpty`
answers `(true, nil)`. -/
theorem isEmpty_always_nil_error_witness :
    LBPage.IsEmpty { Body := Json.obj [("loadBalancers", Json.arr [Json.num 3])] }
      = some (true, none) :=
  (isEmpty_always_nil_error { Body := Json.obj [("loadBalancers", Json.arr [Json.num 3])] }).2
    [LoadBalancer.zero] (GoErr.decode ["LBs[0]"]) rfl

/-- Claim C4: for every well-formed single-resource document with the
documented field set, `Extract` returns a `LoadBalancer` whose fields
exactly equal the document values with no error; on the spec's example
document, fields absent from the document are zero-valued. -/
theorem extract_roundtrip (lb : LoadBalancer) :
    commonResult.Extract { Body := Json.obj [("loadBalancer", encodeLB lb)], Err := none }
      = (some lb, none)
    ∧ commonResult.Extract { Body := exampleDoc, Err := none } = (some exampleLB, none) := by
  constructor
  · simp [commonResult.Extract, decodeLBResponse, lookupKey,
      decodeLoadBalancer_encodeLB, errOfFields]
  · rfl

/-- Claim C5: for every collection document whose `loadBalancers` envelope
is an array of N well-formed elements, `ExtractLBs` returns exactly those
N load balancers in order, with no error. -/
theorem extractLBs_roundtrip (lbs : List LoadBalancer) :
    ExtractLBs (Page.lb { Body := Json.obj [("loadBalancers", Json.arr (lbs.map encodeLB))] })
      = some (lbs, none) := by
  simp [ExtractLBs, decodeLBsResponse, lookupKey, decodeList, decodeListFrom_lbs, errOfFields]

/-- Claim C6: an empty or absent `loadBalancers` array yields an empty
sequence and no error from `ExtractLBs`, and `IsEmpty` on the same pages
answers `(true, nil)`. -/
theorem extractLBs_empty_ok :
    ExtractLBs (Page.lb { Body := Json.obj [("loadBalancers", Json.arr [])] }) = some ([], none)
    ∧ ExtractLBs (Page.lb { Body := Json.obj [] }) = some ([], none)
    ∧ LBPage.IsEmpty { Body := Json.obj [("loadBalancers", Json.arr [])] } = some (true, none)
    ∧ LBPage.IsEmpty { Body := Json.obj [] } = some (true, none) :=
  ⟨rfl, rfl, rfl, rfl⟩

/-- Claim C7: the protocol, algorithm and status fields decode any string
value, documented or not, without error, and the decoded value equals the
input string exactly, with no normalization or case folding. -/
theorem enum_fields_passthrough (p a s : String) (lb : LoadBalancer) :
    commonResult.Extract
      { Err := none
        Body := Json.obj [("loadBalancer", encodeLB { lb with Protocol := p, Algorithm := a, Status := s })] }
      = (some { lb with Protocol := p, Algorithm := a, Status := s }, none) := by
  simp [commonResult.Extract, decodeLBResponse, lookupKey,
    decodeLoadBalancer_encodeLB, errOfFields]

/-- Claim C8, counterexample: a well-formed document whose `algorithm`
field is absent decodes to a `LoadBalancer` whose `Algorithm` is the empty
string, not the claimed default `RANDOM`. -/
theorem extract_absent_algorithm_counterexample :
    commonResult.Extract { Body := Json.obj [("loadBalancer", Json.obj [("id", Json.num 1)])], Err := none }
      = (some { LoadBalancer.zero with ID := 1 }, none)
    ∧ ({ LoadBalancer.zero with ID := 1 } : LoadBalancer).Algorithm ≠ "RANDOM" :=
  ⟨rfl, by decide⟩

/-- Claim C8, amended: when the `algorithm` field is absent from the
envelope, the `LoadBalancer` returned by `Extract` has the zero-valued
`Algorithm` (the empty string); the `RANDOM` default is applied by the
remote API, not by the decoder. -/
theorem extract_absent_algorithm_zero (kvs : List (String × Json))
    (h : lookupKey kvs "Algorithm" = none) :
    (commonResult.Extract { Body := Json.obj [("loadBalancer", Json.obj kvs)], Err := none }).1.map
        (fun lb => lb.Algorithm) = some "" := by
  have hstep : commonResult.Extract { Body := Json.obj [("loadBalancer", Json.obj kvs)], Err := none }
      = (some (decodeLoadBalancer "loadBalancer" (Json.obj kvs)).1,
         errOfFields (decodeLoadBalancer "loadBalancer" (Json.obj kvs)).2) := rfl
  rw [hstep]
  simp [decodeLoadBalancer, decField, h]

/-- Witness for amended claim C8 at a document carrying only an id: the
algorithm lookup misses and the decoded `Algorithm` is the empty string. -/
theorem extract_absent_algorithm_zero_witness :
    lookupKey [("id", Json.num 1)] "Algorithm" = none ∧
    (commonResult.Extract { Body := Json.obj [("loadBalancer", Json.obj [("id", Json.num 1)])], Err := none }).1.map
        (fun lb => lb.Algorithm) = some "" :=
  ⟨rfl, extract_absent_algorithm_zero [("id", Json.num 1)] rfl⟩

/-- Claim C9: for every result object with no transport error, `Extract`
returns a non-nil resource pointer, even when decoding fails. -/
theorem extract_nonnil_resource (body : Json) :
    ((commonResult.Extract { Body := body, Err := none }).1).isSome = true := rfl

/-- Claim C10: `ExtractLBs` downcasts its page argument to `LBPage`
unchecked: on every page value of any other type the operation panics
(modelled `none`), while on every `LBPage` it returns normally. -/
theorem extractLBs_asserts_lbpage :
    (∀ (tag : String) (body : Json), ExtractLBs (Page.other tag body) = none)
    ∧ (∀ p : LBPage, (ExtractLBs (Page.lb p)).isSome = true) :=
  ⟨fun _ _ => rfl, fun _ => rfl⟩
